import Mathlib

/-!
Verification of the EasyLinux agent's mediation/execution layer
(`agent.py`) against its natural-language specification.

The Python code is shallowly embedded: pure string manipulation
(`os.path` lexical operations, `shlex.split`, validators) is translated
directly; effectful operations (subprocess spawns, file writes, database
calls) are modelled by oracles carried in an environment record, with the
embedded functions returning, besides the source's result value, the
trace of effects they perform.  Exceptions are modelled with `Except`;
`try`/`except` blocks become matches on the exception constructor.
-/

namespace EasyLinux

/-! ## Python string primitives

Helpers mirroring the Python `str` methods used by `agent.py`.  All are
implemented by structural recursion over `List Char` so that they
evaluate inside the kernel.  Strings in the source are ASCII. -/

/-- Python whitespace for `str.strip` / `str.split()` / shlex (` \t\r\n`). -/
def isWs (c : Char) : Bool :=
  c = ' ' ∨ c = '\t' ∨ c = '\r' ∨ c = '\n'

/-- Python `s.strip()`. -/
def pyStrip (s : String) : String :=
  ⟨((s.data.dropWhile isWs).reverse.dropWhile isWs).reverse⟩

/-- Python `s.strip(c)` for a single strip character. -/
def pyStripChar (c : Char) (s : String) : String :=
  ⟨((s.data.dropWhile (· = c)).reverse.dropWhile (· = c)).reverse⟩

/-- Python `s.lstrip(c)` for a single strip character. -/
def pyLstripChar (c : Char) (s : String) : String :=
  ⟨s.data.dropWhile (· = c)⟩

/-- ASCII upper-casing of one character (Python `str.upper` on ASCII input). -/
def asciiUpper (c : Char) : Char :=
  if 'a' ≤ c ∧ c ≤ 'z' then Char.ofNat (c.toNat - 32) else c

/-- Python `s.upper()` (ASCII). -/
def pyUpper (s : String) : String :=
  ⟨s.data.map asciiUpper⟩

/-- Python `s.startswith(pre)`. -/
def pyStartswith (s pre : String) : Bool :=
  pre.data.isPrefixOf s.data

/-- Python `c in s` for a single character. -/
def containsChar (s : String) (c : Char) : Bool :=
  s.data.contains c

/-- List-level substring test: does `n` occur as a contiguous run in `l`? -/
def subList (n : List Char) : List Char → Bool
  | [] => n.isEmpty
  | c :: t => n.isPrefixOf (c :: t) || subList n t

/-- Python `needle in hay` for strings. -/
def containsSub (needle hay : String) : Bool :=
  subList needle.data hay.data

/-- Drop `n` code points, Python `s[n:]` for nonnegative `n` (ASCII). -/
def pyDrop (n : Nat) (s : String) : String :=
  ⟨s.data.drop n⟩

/-- The characters of `l` strictly before the first occurrence of `sep`
(`l` itself when `sep` does not occur).  `Python s.split(sep)[0]`. -/
def takeBeforeAux (sep : List Char) : List Char → List Char
  | [] => []
  | c :: rest =>
    if sep.isPrefixOf (c :: rest) then []
    else c :: takeBeforeAux sep rest

/-- Python `s.split(sep)[0]`: the text before the first occurrence of `sep`. -/
def takeBefore (sep s : String) : String :=
  ⟨takeBeforeAux sep.data s.data⟩

/-- Everything after the first occurrence of `sep` (empty when absent). -/
def afterFirstAux (sep : List Char) : List Char → List Char
  | [] => []
  | c :: rest =>
    if sep.isPrefixOf (c :: rest) then (c :: rest).drop sep.length
    else afterFirstAux sep rest

/-- Python `s.split(sep, 1)`: `none` when `sep` is absent, otherwise the
text before and after its first occurrence. -/
def pySplit1 (sep s : String) : Option (String × String) :=
  if containsSub sep s then
    some (takeBefore sep s, ⟨afterFirstAux sep.data s.data⟩)
  else none

/-- Python `s.split(sep)[1]`: the text between the first and second
occurrence of `sep` (meaningful only when `sep` occurs in `s`). -/
def betweenFirstTwo (sep s : String) : String :=
  ⟨takeBeforeAux sep.data (afterFirstAux sep.data s.data)⟩

/-- Split on a single character, keeping empty pieces (Python `s.split(c)`
with an explicit separator). -/
def splitChar (sep : Char) : List Char → List (List Char)
  | [] => [[]]
  | c :: rest =>
    if c = sep then [] :: splitChar sep rest
    else
      match splitChar sep rest with
      | h :: t => (c :: h) :: t
      | [] => [[c]]

/-- Python `s.split()` (no separator): split on whitespace runs,
discarding empty pieces. -/
def pySplitWsAux : List Char → List Char → List String
  | [], cur => if cur.isEmpty then [] else [⟨cur.reverse⟩]
  | c :: rest, cur =>
    if isWs c then
      if cur.isEmpty then pySplitWsAux rest []
      else (⟨cur.reverse⟩ : String) :: pySplitWsAux rest []
    else pySplitWsAux rest (c :: cur)

/-- Python `s.split()` with no arguments. -/
def pySplitWs (s : String) : List String :=
  pySplitWsAux s.data []

/-- Python `sep.join(l)`. -/
def joinWith (sep : String) : List String → String
  | [] => ""
  | [x] => x
  | x :: y :: xs => x ++ sep ++ joinWith sep (y :: xs)

/-- Decimal digit value. -/
def digitVal (c : Char) : Option Nat :=
  if '0' ≤ c ∧ c ≤ '9' then some (c.toNat - 48) else none

/-- Parse a nonempty all-digit list. -/
def natOfDigits : List Char → Option Nat
  | [] => none
  | l => go l 0
where
  go : List Char → Nat → Option Nat
    | [], acc => some acc
    | c :: rest, acc =>
      match digitVal c with
      | some d => go rest (acc * 10 + d)
      | none => none

/-- Python `int(s)`: surrounding whitespace allowed, optional sign, then
decimal digits (digit-group underscores are not modelled).  `none` models
the `ValueError`. -/
def pyInt (s : String) : Option Int :=
  match (pyStrip s).data with
  | '-' :: rest => (natOfDigits rest).map (fun n => -(n : Int))
  | '+' :: rest => (natOfDigits rest).map (fun n => (n : Int))
  | l => (natOfDigits l).map (fun n => (n : Int))

/-- The apostrophe character, kept out of string literals. -/
def squoteC : Char := Char.ofNat 39

/-- The double-quote character. -/
def dquoteC : Char := Char.ofNat 34

/-- One-character apostrophe string. -/
def sq : String := ⟨[squoteC]⟩

/-- One-character double-quote string. -/
def dq : String := ⟨[dquoteC]⟩

/-! ## Lexical path operations (`posixpath`)

`os.path.join`, `os.path.normpath` and `os.path.abspath` as used by
`agent.py`.  These are purely lexical: `abspath` does *not* resolve
symlinks (that would be `realpath`, which the source never calls). -/

/-- Python `os.path.isabs` (POSIX). -/
def isAbs (p : String) : Bool :=
  pyStartswith p "/"

/-- Python `os.path.join(a, b)` (POSIX, two arguments). -/
def pjoin (a b : String) : String :=
  if isAbs b then b
  else if a = "" ∨ a.data.reverse.head? = some '/' then a ++ b
  else a ++ "/" ++ b

/-- Component filtering of `posixpath.normpath`: drop `""` and `"."`,
resolve `".."` against the accumulated components. -/
def normComps (hasRoot : Bool) : List (List Char) → List (List Char) → List (List Char)
  | [], acc => acc.reverse
  | c :: rest, acc =>
    if c = [] ∨ c = ['.'] then normComps hasRoot rest acc
    else if c = ['.', '.'] then
      match acc with
      | [] =>
        if hasRoot then normComps hasRoot rest []
        else normComps hasRoot rest [['.', '.']]
      | a :: tl =>
        if a = ['.', '.'] then normComps hasRoot rest (c :: a :: tl)
        else normComps hasRoot rest tl
    else normComps hasRoot rest (c :: acc)

/-- Python `posixpath.normpath`. -/
def normpath (p : String) : String :=
  if p = "" then "." else
  let slashes : Nat :=
    if pyStartswith p "//" ∧ ¬ pyStartswith p "///" then 2
    else if pyStartswith p "/" then 1 else 0
  let comps := normComps (slashes > 0) (splitChar '/' p.data) []
  let body := joinWith "/" (comps.map (fun l => (⟨l⟩ : String)))
  let res := (if slashes = 2 then "//" else if slashes = 1 then "/" else "") ++ body
  if res = "" then "." else res

/-- Python `os.path.abspath` relative to the process working directory
`cwd`.  When the argument is already absolute, `cwd` is irrelevant. -/
def pyAbspath (cwd p : String) : String :=
  if isAbs p then normpath p else normpath (pjoin cwd p)

/-! ## The shell tokenizer (`shlex.split`)

`shlex.split(s)` as configured by the stdlib `split` helper: POSIX mode,
`whitespace_split=True`, no comment characters, no punctuation
characters.  The `Except.error` payloads are the `ValueError` messages
the stdlib raises. -/

/-- Lexer state of the shlex state machine: skipping whitespace, inside a
bare word, inside a quoted section, or right after an escape character
(remembering the state being escaped: `a` for word, or the quote). -/
inductive LexState where
  | ws
  | word
  | inQuote (q : Char)
  | inEscape (escapedstate : Char)
deriving Repr, DecidableEq

/-- One pass of the shlex state machine over the remaining characters.
`quoted` and `tok` belong to the token under construction, `acc` holds
the tokens already emitted. -/
def shlexRun : List Char → LexState → Bool → List Char → List String → Except String (List String)
  | [], st, quoted, tok, acc =>
    match st with
    | .inQuote _ => .error "No closing quotation"
    | .inEscape _ => .error "No escaped character"
    | _ =>
      if tok ≠ [] ∨ quoted then .ok (acc ++ [⟨tok⟩]) else .ok acc
  | c :: rest, .ws, quoted, tok, acc =>
    if isWs c then
      if tok ≠ [] ∨ quoted then shlexRun rest .ws false [] (acc ++ [⟨tok⟩])
      else shlexRun rest .ws quoted tok acc
    else if c = '\\' then shlexRun rest (.inEscape 'a') quoted tok acc
    else if c = squoteC ∨ c = dquoteC then shlexRun rest (.inQuote c) quoted tok acc
    else shlexRun rest .word quoted (tok ++ [c]) acc
  | c :: rest, .word, quoted, tok, acc =>
    if isWs c then
      if tok ≠ [] ∨ quoted then shlexRun rest .ws false [] (acc ++ [⟨tok⟩])
      else shlexRun rest .ws quoted tok acc
    else if c = squoteC ∨ c = dquoteC then shlexRun rest (.inQuote c) quoted tok acc
    else if c = '\\' then shlexRun rest (.inEscape 'a') quoted tok acc
    else shlexRun rest .word quoted (tok ++ [c]) acc
  | c :: rest, .inQuote q, _, tok, acc =>
    if c = q then shlexRun rest .word true tok acc
    else if q = dquoteC ∧ c = '\\' then shlexRun rest (.inEscape q) true tok acc
    else shlexRun rest (.inQuote q) true (tok ++ [c]) acc
  | c :: rest, .inEscape e, quoted, tok, acc =>
    let tok :=
      if (e = squoteC ∨ e = dquoteC) ∧ c ≠ '\\' ∧ c ≠ e then tok ++ ['\\', c]
      else tok ++ [c]
    if e = squoteC ∨ e = dquoteC then shlexRun rest (.inQuote e) quoted tok acc
    else shlexRun rest .word quoted tok acc

/-- Python `shlex.split(s)` (POSIX, whitespace-split, comments disabled). -/
def shlex_split (s : String) : Except String (List String) :=
  shlexRun s.data .ws false [] []

/-! ## Rule registry and validators (`AIAgent.__init__`, `validate_*`) -/

/-- One entry of `self.command_rules`. -/
structure Rule where
  allowed_flags : List String
  max_args : Nat
  description : String
deriving Repr, DecidableEq

/-- The fixed sandbox root, `self.working_directory`. -/
def working_directory : String := "/app/test"

/-- The registry `self.command_rules` (allowed flags modelled as lists). -/
def command_rules (c : String) : Option Rule :=
  if c = "cd" then some ⟨[], 1, "Change directory"⟩
  else if c = "pwd" then some ⟨[], 0, "Print working directory"⟩
  else if c = "ls" then
    some ⟨["-l", "-a", "-h", "-r", "--sort", "-S", "-lh", "-lS", "-la", "-lha"], 2, "List directory contents"⟩
  else if c = "grep" then
    some ⟨["-i", "-v", "-n", "-r", "-l", "--recursive"], 4, "Search for patterns"⟩
  else if c = "find" then some ⟨["-type", "-name", "-f"], 4, "Search for files"⟩
  else if c = "cat" then some ⟨["-n", "--number"], 2, "Display file contents"⟩
  else if c = "head" then some ⟨["-n"], 2, "Output the first part of files"⟩
  else if c = "tail" then some ⟨["-n", "-f"], 2, "Output the last part of files"⟩
  else if c = "wc" then some ⟨["-l", "-w", "-c"], 2, "Print newline, word, and byte counts"⟩
  else if c = "sort" then some ⟨["-r", "-n"], 2, "Sort lines of text files"⟩
  else if c = "uniq" then some ⟨["-c", "-d", "-u"], 2, "Report or omit repeated lines"⟩
  else if c = "echo" then some ⟨["-n", "-e"], 10, "Display a line of text"⟩
  else if c = "ps" then some ⟨["-e", "-f", "-a"], 1, "Report process status"⟩
  else if c = "df" then some ⟨["-h", "-i"], 1, "Report file system disk space usage"⟩
  else if c = "du" then some ⟨["-h", "-s", "-a", "-sh"], 2, "Estimate file space usage"⟩
  else if c = "python" then some ⟨["-u", "-m", "-c"], 2, "Execute Python scripts"⟩
  else if c = "python3" then some ⟨["-u", "-m", "-c"], 2, "Execute Python scripts"⟩
  else if c = "pip" then
    some ⟨["install", "uninstall", "list", "freeze", "--version", "-r", "--user"], 4, "Python package manager"⟩
  else if c = "pip3" then
    some ⟨["install", "uninstall", "list", "freeze", "--version", "-r", "--user"], 4, "Python package manager"⟩
  else if c = "mysql" then
    some ⟨["-e", "--execute", "-D", "--database", "USE"], 5, "Execute MySQL commands"⟩
  else if c = "query" then some ⟨[], 1, "Execute SQL queries"⟩
  else none

/-- The fixed package allowlist `self.allowed_packages`. -/
def allowed_packages : List String :=
  ["requests", "pandas", "numpy", "matplotlib", "scikit-learn", "tensorflow",
   "torch", "flask", "django", "pytest", "beautifulsoup4", "pillow",
   "opencv-python", "sqlalchemy", "psycopg2-binary", "pymongo", "redis",
   "celery", "fastapi", "uvicorn", "aiohttp", "jupyter"]

/-- `AIAgent.validate_path`: join the candidate to the sandbox root, take
`os.path.abspath` (purely lexical, no symlink resolution), and test the
root as a *string prefix*.  The joined path is always absolute because
`working_directory` is, so the process cwd handed to `abspath` is
irrelevant; `"/"` stands in for it.  The source's `except` clause has
nothing to catch in this purely lexical computation. -/
def validate_path (path : String) : Bool :=
  let abs_path := pyAbspath "/" (pjoin working_directory path)
  pyStartswith abs_path working_directory

/-- The per-argument path loop at the end of `validate_command`. -/
def checkPaths : List String → Bool × String
  | [] => (true, "")
  | arg :: rest =>
    if validate_path arg then checkPaths rest
    else (false, "Invalid path: " ++ arg)

/-- The per-package allowlist loop of `validate_pip_command`. -/
def checkPackages : List String → Bool × String
  | [] => (true, "")
  | package :: rest =>
    let base_package := takeBefore "<=" (takeBefore ">=" (takeBefore "==" package))
    if allowed_packages.contains base_package then checkPackages rest
    else (false, "Package " ++ sq ++ base_package ++ sq ++ " is not in the allowed list")

/-- `AIAgent.validate_pip_command` (receives the argument list whose head
is the pip sub-command). -/
def validate_pip_command (args : List String) : Bool × String :=
  match args with
  | [] => (false, "No pip command specified")
  | command :: rest =>
    if command = "install" then
      checkPackages (rest.filter (fun a => ¬ pyStartswith a "-"))
    else if command = "list" ∨ command = "freeze" ∨ command = "--version" then (true, "")
    else (false, "Pip command " ++ sq ++ command ++ sq ++ " is not allowed")

/-- `AIAgent.validate_command`.  The source's loop for combined `ls`
flags appends each argument unchanged in both of its branches, so it is
the identity and is omitted.  Python renders the invalid-flag set with
set syntax; the message here joins the offending flags with `", "` (no
claim depends on that rendering). -/
def validate_command (command : String) (args : List String) : Bool × String :=
  match command_rules command with
  | none => (false, "Command " ++ sq ++ command ++ sq ++ " is not allowed")
  | some rules =>
    if (command = "python" ∨ command = "python3") ∧ 2 ≤ args.length ∧ args.head? = some "-c" then
      (true, "")
    else if (command = "pip" ∨ command = "pip3") ∧ args.head? = some "install" then
      validate_pip_command args
    else
      let flags := args.filter (fun a => pyStartswith a "-")
      let non_flags := args.filter (fun a => ¬ pyStartswith a "-")
      let invalid_flags := flags.filter (fun f => ¬ rules.allowed_flags.contains f)
      if invalid_flags ≠ [] then
        (false, "Invalid flags: " ++ joinWith ", " invalid_flags)
      else if rules.max_args < non_flags.length then
        (false, "Too many arguments. Maximum allowed: " ++ toString rules.max_args)
      else checkPaths non_flags

/-! ## Specification-side containment (spec §4.2), for comparison -/

/-- The resolved form the containment check works with: the candidate
joined to the sandbox root and lexically normalized. -/
def resolved_form (path : String) : String :=
  pyAbspath "/" (pjoin working_directory path)

/-- Containment as the spec words it: the resolved form is the sandbox
root itself or a descendant of it.  (Symlink resolution is outside this
string model; this is the lexical part of the spec's requirement.) -/
def spec_is_contained (path : String) : Bool :=
  (resolved_form path == working_directory) ||
    pyStartswith (resolved_form path) (working_directory ++ "/")

/-! ## Effect model

Exceptions, process results and the oracles standing for the operating
system and the database backend. -/

/-- Exceptions, by the classes the source's handlers distinguish:
`mysql.connector.Error`, `ValueError` (shlex), `subprocess.TimeoutExpired`
and everything else. -/
inductive Exc where
  | mysqlError (msg : String)
  | valueError (msg : String)
  | timeoutExpired
  | otherError (msg : String)
deriving Repr, DecidableEq

/-- Python `str(e)` for the modelled exceptions (the precise rendering of
a `TimeoutExpired` is not reproduced). -/
def excStr : Exc → String
  | .mysqlError m => m
  | .valueError m => m
  | .timeoutExpired => "timed out"
  | .otherError m => m

/-- Outcome of a completed `subprocess.run`. -/
structure ProcResult where
  returncode : Int
  stdout : String
  stderr : String
deriving Repr, DecidableEq

/-- One child process creation: either an argument vector
(`subprocess.run([...])`) or a shell-interpreted command string
(`subprocess.run(cmd, shell=True)`). -/
inductive Spawn where
  | vec (argv : List String)
  | sh (cmd : String)
deriving Repr, DecidableEq

/-- A result row of the `dictionary=True` cursor: ordered column/value
pairs, values rendered as strings. -/
abbrev Row := List (String × String)

/-- Result of executing one SQL statement (rows as fetched, and the
cursor's `rowcount`). -/
structure QueryResult where
  rows : List Row
  rowcount : Int
deriving Repr, DecidableEq

/-- Backend oracle: what each submitted statement does, whether a
liveness ping succeeds, whether `close()` raises a connector `Error`
(`some msg`) or returns cleanly, and the rendering
`pandas.DataFrame(rows).to_string()`, which is kept abstract. -/
structure DbEnv where
  exec : String → Except Exc QueryResult
  ping : Except Exc Unit
  close : Option String
  toStr : List Row → String

/-- Operating-system oracle: vector and shell process execution, path
existence, the sandbox directory listing, and the regular-file test. -/
structure Env where
  run : List String → Except Exc ProcResult
  runShell : String → Except Exc ProcResult
  pathExists : String → Bool
  listdir : List String
  isfile : String → Bool
  db : DbEnv

/-- The live connection object (`self.db_connection` when not `None`). -/
structure DbConn where
  connected : Bool
  database : String
deriving Repr, DecidableEq

/-- The stored connection defaults `self.db_config` (only the fields
`disconnect_database` reads). -/
structure DbConfig where
  host : Option String
  database : Option String
deriving Repr, DecidableEq

/-- The agent's mutable state: the optional connection, the stored
config, and the process working directory (`os.getcwd()`, moved by the
`cd` handler). -/
structure AgentState where
  db_connection : Option DbConn
  db_config : DbConfig
  cwd : String
deriving Repr, DecidableEq

/-! ## Connection bookkeeping and the SQL dispatcher -/

/-- `AIAgent.connect_to_db`: no auto-reconnect after an explicit
disconnect; a stale connection is pinged with `reconnect=True`; a
connector `Error` from the ping is caught, clears the connection and
reports `false`; any other exception propagates. -/
def connect_to_db (st : AgentState) (env : DbEnv) : Except Exc (Bool × AgentState) :=
  match st.db_connection with
  | none => .ok (false, st)
  | some conn =>
    if conn.connected then .ok (true, st)
    else
      match env.ping with
      | .ok _ => .ok (true, { st with db_connection := some { conn with connected := true } })
      | .error (.mysqlError _) => .ok (false, { st with db_connection := none })
      | .error e => .error e

/-- `[list(row.values())[0] for row in results]`: the first value of each
row; an empty row raises `IndexError`. -/
def firstVals : List Row → Except Exc (List String)
  | [] => .ok []
  | row :: rest =>
    match row.head? with
    | none => .error (.otherError "list index out of range")
    | some kv =>
      match firstVals rest with
      | .ok vs => .ok (kv.2 :: vs)
      | .error e => .error e

/-- What `execute_query` produces: the result pair, unless an exception
escapes it (`.error`); the updated state; and the statements submitted to
the backend, in order. -/
structure QOut where
  result : Except Exc (String × Bool)
  state : AgentState
  sqlTrace : List String

/-- `AIAgent.execute_query`.  The column count of a `SELECT` report is
the width of the first row (a `DataFrame` built from uniform dict rows).
Only `mysql.connector.Error` is caught by the handlers; in particular the
`IndexError` from `query.split()[1]` on a bare `USE` propagates. -/
def execute_query (query : String) (st : AgentState) (env : DbEnv) : QOut :=
  match connect_to_db st env with
  | .error e => { result := .error e, state := st, sqlTrace := [] }
  | .ok (false, st1) =>
    { result := .ok ("Database Status: Not connected\nAction Required: Please connect to a database first", false),
      state := st1, sqlTrace := [] }
  | .ok (true, st1) =>
    let qU := pyUpper (pyStrip query)
    if pyStartswith qU "USE" then
      match env.exec query with
      | .error (.mysqlError m) =>
        { result := .ok ("Failed to switch database: " ++ m, false), state := st1, sqlTrace := [query] }
      | .error e => { result := .error e, state := st1, sqlTrace := [query] }
      | .ok _ =>
        match (pySplitWs query).get? 1 with
        | none => { result := .error (.otherError "list index out of range"), state := st1, sqlTrace := [query] }
        | some w =>
          let newdb := pyStripChar ';' w
          let st2 := { st1 with db_connection := st1.db_connection.map (fun c => { c with database := newdb }) }
          { result := .ok ("Successfully switched to database: " ++ newdb, true), state := st2, sqlTrace := [query] }
    else
      match env.exec query with
      | .error (.mysqlError m) =>
        { result := .ok ("Database Error: " ++ m ++ "\nQuery: " ++ query, false), state := st1, sqlTrace := [query] }
      | .error e => { result := .error e, state := st1, sqlTrace := [query] }
      | .ok qr =>
        if pyStartswith qU "SHOW" ∨ pyStartswith qU "DESCRIBE" then
          if qr.rows = [] then
            { result := .ok ("Query executed successfully\nResult: No tables found in database", true),
              state := st1, sqlTrace := [query] }
          else if pyStartswith qU "SHOW" then
            match firstVals qr.rows with
            | .error e => { result := .error e, state := st1, sqlTrace := [query] }
            | .ok tables =>
              { result := .ok ("Query executed successfully\nFound " ++ toString tables.length ++
                  " table(s):\n- " ++ joinWith "\n- " tables, true),
                state := st1, sqlTrace := [query] }
          else
            { result := .ok ("Query executed successfully\nTable Structure:\n" ++ env.toStr qr.rows, true),
              state := st1, sqlTrace := [query] }
        else if pyStartswith qU "SELECT" then
          if qr.rows = [] then
            { result := .ok ("Query executed successfully\nResult: No rows returned", true),
              state := st1, sqlTrace := [query] }
          else
            { result := .ok ("Query executed successfully\nReturned: " ++ toString qr.rows.length ++
                " row(s), " ++ toString (qr.rows.headD []).length ++ " column(s)\n" ++ env.toStr qr.rows, true),
              state := st1, sqlTrace := [query] }
        else
          { result := .ok ("Query executed successfully\nAffected rows: " ++ toString qr.rowcount, true),
            state := st1, sqlTrace := [query] }

/-! ## The loop engine (`AIAgent.execute_loop`) -/

/-- What `execute_loop` produces: result pair, state, spawned processes
and submitted SQL statements.  The loop body is wrapped in a catch-all
handler, so no exception escapes. -/
structure LoopOut where
  result : String × Bool
  state : AgentState
  spawns : List Spawn
  sqlTrace : List String

/-- The report line one file contributes to the `FILE` loop: the trimmed
output, `"(no output)"`, the trimmed stderr as an error line (non-zero
exit), or the per-file exception message. -/
def fileLine (command : String) (command_args : List String) (env : Env) (file : String) : String :=
  match env.run (command :: command_args ++ [pjoin working_directory file]) with
  | .ok r =>
    if r.returncode = 0 then
      let output := pyStrip r.stdout
      if output = "" then "(no output)" else output
    else "Error: " ++ pyStrip r.stderr
  | .error e => "Error processing " ++ file ++ ": " ++ excStr e

/-- The per-file body of the `FILE` loop: run the command on each file,
appending a header section and the file's report line — and always
continue with the rest. -/
def fileLoop (command : String) (command_args : List String) (env : Env) :
    List String → List String × List Spawn
  | [] => ([], [])
  | file :: rest =>
    (("\n=== " ++ file ++ " ===") :: fileLine command command_args env file ::
        (fileLoop command command_args env rest).1,
      Spawn.vec (command :: command_args ++ [pjoin working_directory file]) ::
        (fileLoop command command_args env rest).2)

/-- The per-table body of the `TABLE` loop.  Returns the accumulated
report lines (or the first escaping exception) together with the
statements submitted so far.  An operation matching none of
`SHOW`/`COUNT`/`DESCRIBE` appends nothing and submits nothing. -/
def tableLoop (operation : String) (limit : Option Int) (env : DbEnv) :
    List String → Except Exc (List String) × List String
  | [] => (.ok [], [])
  | table :: rest =>
    if operation = "SHOW" then
      let query := "SELECT * FROM " ++ table ++
        (match limit with
         | some l => if l ≠ 0 then " LIMIT " ++ toString l else ""
         | none => "")
      match env.exec query with
      | .error e => (.error e, [query])
      | .ok qr =>
        let lines := ("\n=== Table: " ++ table ++ " ===") ::
          [if qr.rows = [] then "(empty table)" else env.toStr qr.rows]
        match tableLoop operation limit env rest with
        | (.ok ls, tr) => (.ok (lines ++ ls), query :: tr)
        | (.error e, tr) => (.error e, query :: tr)
    else if operation = "COUNT" then
      let query := "SELECT COUNT(*) as count FROM " ++ table
      match env.exec query with
      | .error e => (.error e, [query])
      | .ok qr =>
        match qr.rows.head? with
        | none => (.error (.otherError "NoneType object is not subscriptable"), [query])
        | some row =>
          match row.lookup "count" with
          | none => (.error (.otherError "KeyError: count"), [query])
          | some count =>
            match tableLoop operation limit env rest with
            | (.ok ls, tr) => (.ok (("Table " ++ table ++ ": " ++ count ++ " rows") :: ls), query :: tr)
            | (.error e, tr) => (.error e, query :: tr)
    else if operation = "DESCRIBE" then
      let query := "DESCRIBE " ++ table
      match env.exec query with
      | .error e => (.error e, [query])
      | .ok qr =>
        let lines := ("\n=== Structure of " ++ table ++ " ===") :: [env.toStr qr.rows]
        match tableLoop operation limit env rest with
        | (.ok ls, tr) => (.ok (lines ++ ls), query :: tr)
        | (.error e, tr) => (.error e, query :: tr)
    else tableLoop operation limit env rest

/-- `AIAgent.execute_loop`.  Every exception is caught by the outer
handler and rendered as `"Error executing loop: ..."`. -/
def execute_loop (loop_type operation : String) (st : AgentState) (env : Env) : LoopOut :=
  if loop_type = "FILE" then
    let files := env.listdir.filter (fun f => env.isfile (pjoin working_directory f))
    if files = [] then
      { result := ("No files found in current directory", false), state := st, spawns := [], sqlTrace := [] }
    else
      match shlex_split operation with
      | .error m =>
        { result := ("Error executing loop: " ++ m, false), state := st, spawns := [], sqlTrace := [] }
      | .ok [] =>
        { result := ("Error executing loop: list index out of range", false), state := st, spawns := [], sqlTrace := [] }
      | .ok (command :: command_args) =>
        match command_rules command with
        | none =>
          { result := ("Command " ++ sq ++ command ++ sq ++ " is not allowed", false),
            state := st, spawns := [], sqlTrace := [] }
        | some _ =>
          { result := (joinWith "\n" (fileLoop command command_args env files).1, true),
            state := st, spawns := (fileLoop command command_args env files).2, sqlTrace := [] }
  else if loop_type = "TABLE" then
    match connect_to_db st env.db with
    | .error e =>
      { result := ("Error executing loop: " ++ excStr e, false), state := st, spawns := [], sqlTrace := [] }
    | .ok (false, st1) =>
      { result := ("Failed to connect to database", false), state := st1, spawns := [], sqlTrace := [] }
    | .ok (true, st1) =>
      match env.db.exec "SHOW TABLES" with
      | .error e =>
        { result := ("Error executing loop: " ++ excStr e, false), state := st1, spawns := [],
          sqlTrace := ["SHOW TABLES"] }
      | .ok qr =>
        match firstVals qr.rows with
        | .error e =>
          { result := ("Error executing loop: " ++ excStr e, false), state := st1, spawns := [],
            sqlTrace := ["SHOW TABLES"] }
        | .ok tables =>
          if tables = [] then
            { result := ("No tables found in database", false), state := st1, spawns := [],
              sqlTrace := ["SHOW TABLES"] }
          else
            let hasLimit := containsSub "LIMIT" operation
            let op := if hasLimit then pyStrip (takeBefore "LIMIT" operation) else operation
            let parsed := pyInt (pyStrip (betweenFirstTwo "LIMIT" operation))
            if hasLimit ∧ parsed = none then
              { result := ("Invalid LIMIT value", false), state := st1, spawns := [],
                sqlTrace := ["SHOW TABLES"] }
            else
              let limit : Option Int := if hasLimit then parsed else none
              match tableLoop op limit env.db tables with
              | (.ok ls, tr) =>
                { result := (joinWith "\n" ls, true), state := st1, spawns := [],
                  sqlTrace := "SHOW TABLES" :: tr }
              | (.error e, tr) =>
                { result := ("Error executing loop: " ++ excStr e, false), state := st1, spawns := [],
                  sqlTrace := "SHOW TABLES" :: tr }
  else
    { result := ("Invalid loop type", false), state := st, spawns := [], sqlTrace := [] }

/-! ## The command facade (`AIAgent.execute_command`) -/

/-- What `execute_command` produces: the printed result and success flag,
the updated state, and the traces of processes spawned, files written and
SQL statements submitted. -/
structure CmdOut where
  output : String
  success : Bool
  state : AgentState
  spawns : List Spawn
  writes : List (String × String)
  sqlTrace : List String

/-- The `except` clauses at the bottom of `execute_command`:
`TimeoutExpired` first, then the catch-all. -/
def catchTop (prompt : String) (e : Exc) (st : AgentState) (spawns : List Spawn)
    (writes : List (String × String)) (tr : List String) : CmdOut :=
  match e with
  | .timeoutExpired =>
    { output := prompt ++ "\nCommand timed out", success := false, state := st,
      spawns := spawns, writes := writes, sqlTrace := tr }
  | e =>
    { output := prompt ++ "\nError: " ++ excStr e, success := false, state := st,
      spawns := spawns, writes := writes, sqlTrace := tr }

/-- The SQL dispatch test at the top of `execute_command`. -/
def startsSQLKeyword (s : String) : Bool :=
  let u := pyUpper (pyStrip s)
  pyStartswith u "SELECT" || pyStartswith u "INSERT" || pyStartswith u "UPDATE" ||
    pyStartswith u "DELETE" || pyStartswith u "SHOW" || pyStartswith u "DESCRIBE" ||
    pyStartswith u "CREATE" || pyStartswith u "USE"

/-- Lines 454-456 of the source: SQL statements are handed to
`execute_query`, whose result is prefixed with the prompt (a non-`Error`
exception falls through to the bottom handlers). -/
def sqlBranch (prompt command_str : String) (st : AgentState) (env : Env) : CmdOut :=
  let qo := execute_query command_str st env.db
  match qo.result with
  | .ok (r, succ) =>
    { output := prompt ++ "\n" ++ r, success := succ, state := qo.state,
      spawns := [], writes := [], sqlTrace := qo.sqlTrace }
  | .error e => catchTop prompt e qo.state [] [] qo.sqlTrace

/-- The `cd` handler (operates on the process cwd, `os.getcwd()`). -/
def cdBranch (prompt : String) (command_args : List String) (st : AgentState) : CmdOut :=
  match command_args with
  | [] =>
    { output := prompt ++ "\nChanged to " ++ working_directory, success := true,
      state := { st with cwd := working_directory }, spawns := [], writes := [], sqlTrace := [] }
  | [arg] =>
    let new_path := pyAbspath st.cwd (pjoin st.cwd arg)
    if ¬ pyStartswith new_path working_directory then
      { output := prompt ++ "\nAccess denied: Cannot navigate outside of " ++ working_directory,
        success := false, state := st, spawns := [], writes := [], sqlTrace := [] }
    else
      { output := prompt ++ "\nChanged to " ++ new_path, success := true,
        state := { st with cwd := new_path }, spawns := [], writes := [], sqlTrace := [] }
  | _ =>
    { output := prompt ++ "\nToo many arguments for cd command", success := false,
      state := st, spawns := [], writes := [], sqlTrace := [] }

/-- The raw `python -c` handler: one vector spawn of the token list. -/
def pythonCBranch (prompt : String) (argv : List String) (st : AgentState) (env : Env) : CmdOut :=
  match env.run argv with
  | .error e => catchTop prompt e st [Spawn.vec argv] [] []
  | .ok r =>
    if r.returncode = 0 then
      let output := pyStrip r.stdout
      { output := prompt ++ "\n" ++ (if output = "" then "(no output)" else output),
        success := true, state := st, spawns := [Spawn.vec argv], writes := [], sqlTrace := [] }
    else
      { output := prompt ++ "\n" ++ pyStrip r.stderr, success := false, state := st,
        spawns := [Spawn.vec argv], writes := [], sqlTrace := [] }

/-- The `pip install` fast path (lines 504-537): run the installer
vector as given — with no allowlist validation — and, on exit 0, run the
shell-interpreted import-verification command. -/
def pipFastBranch (prompt : String) (command : String) (command_args : List String)
    (st : AgentState) (env : Env) : CmdOut :=
  let argv := command :: command_args
  match env.run argv with
  | .error e => catchTop prompt e st [Spawn.vec argv] [] []
  | .ok r =>
    if r.returncode = 0 then
      let package_name := (command_args.get? 1).getD ""
      let verify_cmd := "python -c " ++ sq ++ "import " ++ package_name ++ "; print(f" ++
        dq ++ package_name ++ " version: " ++ dq ++ " + " ++ package_name ++ ".__version__)" ++ sq
      match env.runShell verify_cmd with
      | .error e => catchTop prompt e st [Spawn.vec argv, Spawn.sh verify_cmd] [] []
      | .ok vr =>
        if vr.returncode = 0 then
          { output := prompt ++ "\nPackage installed and verified: " ++ pyStrip vr.stdout,
            success := true, state := st, spawns := [Spawn.vec argv, Spawn.sh verify_cmd],
            writes := [], sqlTrace := [] }
        else
          { output := prompt ++ "\nPackage installed but verification failed: " ++ pyStrip vr.stderr,
            success := false, state := st, spawns := [Spawn.vec argv, Spawn.sh verify_cmd],
            writes := [], sqlTrace := [] }
    else
      { output := prompt ++ "\nPackage installation failed: " ++ pyStrip r.stderr,
        success := false, state := st, spawns := [Spawn.vec argv], writes := [], sqlTrace := [] }

/-- The `echo`-with-redirection handler (lines 539-555): parse content
and target out of the raw string and write the file directly — no
validation, no path containment, always success. -/
def echoBranch (prompt command_str : String) (st : AgentState) : CmdOut :=
  match pySplit1 ">" command_str with
  | none =>
    -- unreachable: the branch guard guarantees a ">" occurs in command_str
    { output := prompt, success := false, state := st, spawns := [], writes := [], sqlTrace := [] }
  | some (before, after) =>
    let echo_cmd := pyStrip before
    let file_part := pyLstripChar '>' (pyStrip after)
    let content := pyStripChar squoteC (pyStripChar dquoteC (pyStrip (pyDrop 5 echo_cmd)))
    let filename := pyStrip file_part
    let file_path := pjoin working_directory filename
    { output := prompt ++ "\nFile " ++ dq ++ filename ++ dq ++ " overwritten with " ++
        dq ++ content ++ dq,
      success := true, state := st, spawns := [], writes := [(file_path, content)], sqlTrace := [] }

/-- The validated `pip install` path (lines 564-584): consult
`validate_pip_command`, then spawn `python -m pip` plus the arguments. -/
def pipValidatedBranch (prompt : String) (command : String) (command_args : List String)
    (st : AgentState) (env : Env) : CmdOut :=
  let v := validate_pip_command command_args
  if ¬ v.1 then
    -- the source returns the bare error message here, without the prompt
    { output := v.2, success := false, state := st, spawns := [], writes := [], sqlTrace := [] }
  else
    let python_cmd := if command = "pip" then "python" else "python3"
    let argv := python_cmd :: "-m" :: "pip" :: command_args
    match env.run argv with
    | .error e => catchTop prompt e st [Spawn.vec argv] [] []
    | .ok r =>
      if r.returncode = 0 then
        { output := prompt ++ "\nSuccessfully installed package(s): " ++ joinWith " " command_args.tail,
          success := true, state := st, spawns := [Spawn.vec argv], writes := [], sqlTrace := [] }
      else
        { output := prompt ++ "\nPackage installation failed: " ++ pyStrip r.stderr,
          success := false, state := st, spawns := [Spawn.vec argv], writes := [], sqlTrace := [] }

/-- The default path (lines 586-614): rewrite a `python` script argument
to its sandbox path if it exists, run generic validation, then spawn the
single vector `[command] ++ args`. -/
def regularBranch (prompt : String) (command : String) (command_args : List String)
    (st : AgentState) (env : Env) : CmdOut :=
  let adjusted : Except String (List String) :=
    if command = "python" ∨ command = "python3" then
      match command_args with
      | [] => .ok []
      | a0 :: restArgs =>
        let script_path := pjoin working_directory a0
        if ¬ env.pathExists script_path then .error ("File not found: " ++ a0)
        else .ok (script_path :: restArgs)
    else .ok command_args
  match adjusted with
  | .error msg =>
    { output := prompt ++ "\n" ++ msg, success := false, state := st,
      spawns := [], writes := [], sqlTrace := [] }
  | .ok args2 =>
    let v := validate_command command args2
    if ¬ v.1 then
      -- the source returns the bare error message here, without the prompt
      { output := v.2, success := false, state := st, spawns := [], writes := [], sqlTrace := [] }
    else
      let argv := command :: args2
      match env.run argv with
      | .error e => catchTop prompt e st [Spawn.vec argv] [] []
      | .ok r =>
        if r.returncode = 0 then
          let output := pyStrip r.stdout
          { output := prompt ++ "\n" ++ (if output = "" then "(no output)" else output),
            success := true, state := st, spawns := [Spawn.vec argv], writes := [], sqlTrace := [] }
        else
          { output := prompt ++ "\n" ++ pyStrip r.stderr, success := false, state := st,
            spawns := [Spawn.vec argv], writes := [], sqlTrace := [] }

/-- `AIAgent.execute_command`.  Branches appear in source order: SQL
dispatch, tokenization, `cd`, raw `python -c`, the `pip install` fast
path, `echo` redirection, then re-tokenization (yielding the same
tokens), validated `pip install`, and the default validated path.  Where
the source re-tokenizes `command_str`, the first token list is reused,
the two being equal. -/
def execute_command (command_str : String) (st : AgentState) (env : Env) : CmdOut :=
  let prompt := "$ " ++ command_str
  if startsSQLKeyword command_str then sqlBranch prompt command_str st env
  else
    match shlex_split command_str with
    | .error m => catchTop prompt (.valueError m) st [] [] []
    | .ok [] =>
      { output := prompt ++ "\nEmpty command", success := false, state := st,
        spawns := [], writes := [], sqlTrace := [] }
    | .ok (command :: command_args) =>
      if command = "cd" then cdBranch prompt command_args st
      else if pyStartswith (pyStrip command_str) "python -c" ∨
          pyStartswith (pyStrip command_str) "python3 -c" then
        pythonCBranch prompt (command :: command_args) st env
      else if pyStartswith (pyStrip command_str) "pip install" ∨
          pyStartswith (pyStrip command_str) "pip3 install" then
        pipFastBranch prompt command command_args st env
      else if pyStartswith (pyStrip command_str) "echo" ∧
          (containsChar command_str '>' ∨ containsSub ">>" command_str) then
        echoBranch prompt command_str st
      else if (command = "pip" ∨ command = "pip3") ∧ command_args.head? = some "install" then
        pipValidatedBranch prompt command command_args st env
      else regularBranch prompt command command_args st env

/-! ## Disconnecting (`AIAgent.disconnect_database`) -/

/-- `AIAgent.disconnect_database`.  The backend `close()` either returns
cleanly (`env.close = none`) or raises a connector `Error` (`some msg`),
which the source catches, resetting local state. -/
def disconnect_database (st : AgentState) (env : DbEnv) : String × AgentState :=
  match st.db_connection with
  | some conn =>
    if conn.connected then
      let db_info := "host=" ++ st.db_config.host.getD "unknown" ++
        (match st.db_config.database with
         | some d => ", database=" ++ d
         | none => "")
      match env.close with
      | none =>
        ("Disconnect Status: Success\nDisconnected from: " ++ db_info ++ "\nConnection state: Closed",
          { st with db_connection := none })
      | some m =>
        ("Disconnect Warning\nError while disconnecting: " ++ m ++ "\nConnection state: Reset",
          { st with db_connection := none })
    else ("Disconnect Status: No action needed\nReason: Connection already closed", st)
  | none => ("Disconnect Status: No action needed\nReason: No active connection", st)

/-! ## Derived observations used by the statements below -/

/-- Is a spawn shell-interpreted? -/
def isShellSpawn : Spawn → Bool
  | .sh _ => true
  | .vec _ => false

/-- A disconnect report is one of the three forms the source can return;
per spec §4.4 the close-time-error `Warning` form is "treated as success
from the caller's point of view", so all three count as success. -/
def disconnect_ok (m : String) : Bool :=
  pyStartswith m "Disconnect Status: Success" ||
    pyStartswith m "Disconnect Status: No action needed" ||
    pyStartswith m "Disconnect Warning"

/-- The redirect target the `echo` handler extracts from an instruction
(`parts[1].strip().lstrip(">").strip()`). -/
def echoTargetOf (s : String) : String :=
  pyStrip (pyLstripChar '>' (pyStrip ((pySplit1 ">" s).getD ("", "")).2))

/-- The content the `echo` handler extracts from an instruction
(`echo_cmd[5:].strip().strip(quotes)`). -/
def echoContentOf (s : String) : String :=
  pyStripChar squoteC (pyStripChar dquoteC (pyStrip (pyDrop 5 (pyStrip ((pySplit1 ">" s).getD ("", "")).1))))

/-! ## Concrete scenario values for counterexamples and witnesses -/

/-- A backend oracle holding one table `users` and answering every
statement successfully. -/
def dbEnvA : DbEnv :=
  { exec := fun _ => .ok ⟨[[("Tables_in_testdb", "users")]], 0⟩
    ping := .ok ()
    close := none
    toStr := fun _ => "DF" }

/-- A backend oracle whose every statement raises
`mysql.connector.Error("boom")`. -/
def dbEnvErr : DbEnv :=
  { exec := fun _ => .error (.mysqlError "boom")
    ping := .ok ()
    close := none
    toStr := fun _ => "DF" }

/-- An operating-system oracle where every spawn exits 0. -/
def envA : Env :=
  { run := fun _ => .ok ⟨0, "ok-out", ""⟩
    runShell := fun _ => .ok ⟨0, "evilpkg version: 1.0", ""⟩
    pathExists := fun _ => true
    listdir := ["a.txt", "b.txt"]
    isfile := fun _ => true
    db := dbEnvA }

/-- An operating-system oracle where the command fails (exit 1, stderr
`boom-err`) on `a.txt` and succeeds on every other file. -/
def envFail : Env :=
  { envA with
    run := fun argv =>
      if argv.getLast? = some "/app/test/a.txt" then .ok ⟨1, "", "boom-err"⟩
      else .ok ⟨0, " 3 lines", ""⟩ }

/-- A session connected to `testdb`. -/
def stA : AgentState :=
  ⟨some ⟨true, "testdb"⟩, ⟨some "mysql", some "testdb"⟩, "/app/test"⟩

/-- A session with no connection object at all. -/
def stNone : AgentState :=
  ⟨none, ⟨some "mysql", none⟩, "/app/test"⟩

/-- An `echo` instruction with a `>` whose unbalanced quote makes
`shlex.split` raise. -/
def badEcho : String := "echo " ++ dq ++ "a > f"

/-! ## General lemmas about the string primitives -/

theorem pyStartswith_iff {s pre : String} : pyStartswith s pre = true ↔ pre.data <+: s.data :=
  List.isPrefixOf_iff_prefix

theorem pyStartswith_append (p a b : String) (h : pyStartswith a p = true) :
    pyStartswith (a ++ b) p = true := by
  rw [pyStartswith_iff] at h ⊢
  rw [String.data_append]
  exact h.trans (List.prefix_append _ _)

theorem pyStartswith_cat (p lit x y : String) (h : pyStartswith lit p = true) :
    pyStartswith (lit ++ x ++ y) p = true :=
  pyStartswith_append _ _ _ (pyStartswith_append _ _ _ h)

/-! ## Claim C2: path containment -/

/-- C2 (counterexample): `validate_path` accepts `"../testevil"`, a `..`
traversal whose resolved form `/app/testevil` is neither the sandbox
root nor a descendant of it, refuting the claimed equivalence with
root-or-descendant containment. -/
theorem C2_counterexample :
    validate_path "../testevil" = true ∧
    spec_is_contained "../testevil" = false ∧
    resolved_form "../testevil" = "/app/testevil" :=
  ⟨by decide, by decide, by decide⟩

/-- C2 (amended): the containment check resolves the candidate against
the sandbox root into an absolute lexically-normalized (not
symlink-resolved) form and returns true iff the root is a *string
prefix* of that form.  Every path whose resolved form is the root or a
descendant is accepted, but the converse fails: sibling paths such as
`/app/testevil` that merely extend the root's name are accepted too. -/
theorem C2_containment_characterization (p : String) :
    (spec_is_contained p = true → validate_path p = true) ∧
    (validate_path p = true ↔ pyStartswith (resolved_form p) working_directory = true) := by
  constructor
  · intro h
    unfold spec_is_contained at h
    rw [Bool.or_eq_true] at h
    show pyStartswith (resolved_form p) working_directory = true
    rcases h with h | h
    · have he : resolved_form p = working_directory := eq_of_beq h
      rw [he, pyStartswith_iff]
    · rw [pyStartswith_iff] at h ⊢
      refine List.IsPrefix.trans ?_ h
      rw [String.data_append]
      exact List.prefix_append _ _
  · exact Iff.rfl

/-- C2 (witness): a plain relative file inside the sandbox is contained
per the spec and accepted by the code. -/
theorem C2_witness :
    spec_is_contained "subdir/file.txt" = true ∧ validate_path "subdir/file.txt" = true :=
  ⟨by decide, (C2_containment_characterization "subdir/file.txt").1 (by decide)⟩

/-! ## Claim C4: the `python -c` validator bypass -/

/-- C4 (confirmed): whenever the command is `python` or `python3` and
the arguments start with `-c` followed by at least one more argument,
`validate_command` succeeds unconditionally — for *every* remaining
argument list, so no flag, argument-count or path check is applied. -/
theorem C4_inline_code_bypass (command : String) (args : List String)
    (hc : command = "python" ∨ command = "python3")
    (hlen : 2 ≤ args.length) (hhead : args.head? = some "-c") :
    validate_command command args = (true, "") := by
  rcases hc with rfl | rfl <;>
    simp [validate_command, command_rules, hlen, hhead]

/-- C4 (witness): `python -c` with a flag- and path-free payload — and
indeed a payload `validate_path` would reject — is accepted. -/
theorem C4_witness :
    validate_command "python" ["-c", "/etc/passwd"] = (true, "") :=
  C4_inline_code_bypass "python" ["-c", "/etc/passwd"] (Or.inl rfl) (by decide) rfl

/-! ## Claim C5: pip sub-command restriction -/

/-- C5 (counterexample): `pip uninstall requests` passes validation with
success, although `uninstall` is not install, list, freeze or a version
query — the claimed `SubcommandNotAllowed` failure does not happen. -/
theorem C5_counterexample :
    validate_command "pip" ["uninstall", "requests"] = (true, "") := by decide

/-- C5 (amended): the rejection of pip sub-commands outside install,
list, freeze and `--version` exists only inside `validate_pip_command`,
but `validate_command` consults that validator solely when the first pip
argument is `install`; any other sub-command is validated by the generic
flag/argument/path rules instead, which accept e.g. `uninstall` of any
non-flag, path-accepted package. -/
theorem C5_pip_subcommand_routing :
    (∀ sub rest, sub ≠ "install" → sub ≠ "list" → sub ≠ "freeze" → sub ≠ "--version" →
      validate_pip_command (sub :: rest) =
        (false, "Pip command " ++ sq ++ sub ++ sq ++ " is not allowed")) ∧
    (∀ pkg, pyStartswith pkg "-" = false → validate_path pkg = true →
      validate_command "pip" ["uninstall", pkg] = (true, "")) := by
  constructor
  · intro sub rest h1 h2 h3 h4
    unfold validate_pip_command
    dsimp only
    rw [if_neg h1, if_neg (by rintro (h | h | h) <;> contradiction)]
  · intro pkg hdash hpath
    unfold validate_command
    rw [show command_rules "pip" =
      some ⟨["install", "uninstall", "list", "freeze", "--version", "-r", "--user"], 4,
        "Python package manager"⟩ from rfl]
    dsimp only
    rw [if_neg (by rintro ⟨h | h, -⟩ <;> simp at h)]
    rw [if_neg (by rintro ⟨-, h⟩; simp at h)]
    have hu : pyStartswith "uninstall" "-" = false := by decide
    have hv : validate_path "uninstall" = true := by decide
    simp only [List.filter, hu, hdash]
    simp only [Bool.not_false, Bool.not_true, List.filter, ne_eq, not_true_eq_false,
      not_false_eq_true, reduceIte]
    norm_num
    simp [checkPaths, hv, hpath]

/-- C5 (witness): the validator would reject `uninstall`, yet
`validate_command` accepts `pip uninstall requests`. -/
theorem C5_witness :
    validate_pip_command ["uninstall"] =
      (false, "Pip command " ++ sq ++ "uninstall" ++ sq ++ " is not allowed") ∧
    validate_command "pip" ["uninstall", "requests"] = (true, "") :=
  ⟨C5_pip_subcommand_routing.1 "uninstall" [] (by decide) (by decide) (by decide) (by decide),
   C5_pip_subcommand_routing.2 "requests" (by decide) (by decide)⟩

/-! ## Claim C10: disconnect idempotence -/

/-- C10 (confirmed): from any state both of two consecutive
`disconnect_database` calls produce a success-class report (per spec
§4.4 the close-time-error Warning counts as success), the second call
always reports "No action needed", and when no connection is live the
first call already reports "No action needed" rather than failing. -/
theorem C10_disconnect_idempotent (st : AgentState) (env1 env2 : DbEnv) :
    disconnect_ok (disconnect_database st env1).1 = true ∧
    disconnect_ok (disconnect_database (disconnect_database st env1).2 env2).1 = true ∧
    pyStartswith (disconnect_database (disconnect_database st env1).2 env2).1
      "Disconnect Status: No action needed" = true ∧
    ((st.db_connection = none ∨ ∃ c, st.db_connection = some c ∧ c.connected = false) →
      pyStartswith (disconnect_database st env1).1 "Disconnect Status: No action needed" = true) := by
  obtain ⟨conn, cfg, cwd⟩ := st
  cases conn with
  | none => exact ⟨rfl, rfl, rfl, fun _ => rfl⟩
  | some c =>
    cases hc : c.connected with
    | false =>
      have h1 : ∀ env : DbEnv, disconnect_database ⟨some c, cfg, cwd⟩ env =
          ("Disconnect Status: No action needed\nReason: Connection already closed",
            ⟨some c, cfg, cwd⟩) := by
        intro env
        unfold disconnect_database
        dsimp only
        rw [hc]
        simp
      simp only [h1]
      exact ⟨rfl, rfl, rfl, fun _ => rfl⟩
    | true =>
      have hstate : (disconnect_database ⟨some c, cfg, cwd⟩ env1).2 = ⟨none, cfg, cwd⟩ := by
        unfold disconnect_database
        dsimp only
        rw [hc]
        cases env1.close <;> simp
      have hok1 : disconnect_ok (disconnect_database ⟨some c, cfg, cwd⟩ env1).1 = true := by
        unfold disconnect_database
        dsimp only
        rw [hc]
        cases env1.close with
        | none =>
          simp only [reduceIte]
          unfold disconnect_ok
          rw [Bool.or_eq_true, Bool.or_eq_true]
          exact Or.inl (Or.inl (pyStartswith_cat _ _ _ _ (by decide)))
        | some m =>
          simp only [reduceIte]
          unfold disconnect_ok
          rw [Bool.or_eq_true]
          exact Or.inr (pyStartswith_cat _ _ _ _ (by decide))
      refine ⟨hok1, ?_, ?_, ?_⟩
      · rw [hstate]
        rfl
      · rw [hstate]
        rfl
      · rintro (h | ⟨c2, hcc, hfalse⟩)
        · exact absurd h (by simp)
        · rw [show c = c2 from by injection hcc] at hc
          rw [hc] at hfalse
          exact absurd hfalse (by decide)

/-- C10 (witness): starting disconnected, both consecutive disconnects
report "No action needed". -/
theorem C10_witness :
    pyStartswith (disconnect_database stNone dbEnvA).1
      "Disconnect Status: No action needed" = true ∧
    pyStartswith (disconnect_database (disconnect_database stNone dbEnvA).2 dbEnvA).1
      "Disconnect Status: No action needed" = true :=
  ⟨(C10_disconnect_idempotent stNone dbEnvA dbEnvA).2.2.2 (Or.inl rfl),
   (C10_disconnect_idempotent stNone dbEnvA dbEnvA).2.2.1⟩

/-! ## Claim C1: the pip install allowlist -/

/-- C1 (code bug): `pip install evilpkg` — a package the allowlist
validator rejects — is nevertheless executed: the raw-string fast path
of `execute_command` spawns the installer (and reports success) without
ever consulting `validate_pip_command`, which contradicts the code's own
security design (its allowlist and the validated install path further
down the same function). -/
theorem C1_fastpath_skips_allowlist :
    (execute_command "pip install evilpkg" stA envA).spawns.head? =
      some (.vec ["pip", "install", "evilpkg"]) ∧
    (execute_command "pip install evilpkg" stA envA).success = true ∧
    validate_pip_command ["install", "evilpkg"] =
      (false, "Package " ++ sq ++ "evilpkg" ++ sq ++ " is not in the allowed list") :=
  ⟨rfl, rfl, rfl⟩

/-! ## Claim C3: one vector-spawned child per instruction -/

/-- The spawn trace of the bottom exception handlers is the trace passed
to them. -/
theorem catchTop_spawns (p : String) (e : Exc) (st : AgentState) (sp : List Spawn)
    (w : List (String × String)) (tr : List String) : (catchTop p e st sp w tr).spawns = sp := by
  cases e <;> rfl

/-- C3 (counterexample): a `pip install` instruction spawns two
children, the second of which is shell-interpreted — refuting "exactly
one child, as an argument vector, on every execution path". -/
theorem C3_counterexample :
    (execute_command "pip install requests" stA envA).spawns.length = 2 ∧
    (execute_command "pip install requests" stA envA).spawns.map isShellSpawn = [false, true] :=
  ⟨rfl, rfl⟩

/-- The SQL branch spawns no process. -/
theorem sqlBranch_spawns (p s : String) (st : AgentState) (env : Env) :
    (sqlBranch p s st env).spawns = [] := by
  unfold sqlBranch
  dsimp only
  split
  · rfl
  · rw [catchTop_spawns]

/-- The `cd` branch spawns no process. -/
theorem cdBranch_spawns (p : String) (a : List String) (st : AgentState) :
    (cdBranch p a st).spawns = [] := by
  unfold cdBranch
  split
  · rfl
  · dsimp only
    split <;> rfl
  · rfl

/-- The raw `python -c` branch spawns exactly its vector. -/
theorem pythonCBranch_spawns (p : String) (argv : List String) (st : AgentState) (env : Env) :
    (pythonCBranch p argv st env).spawns = [Spawn.vec argv] := by
  unfold pythonCBranch
  split
  · rw [catchTop_spawns]
  · dsimp only
    split <;> rfl

/-- The `echo` redirection branch spawns no process. -/
theorem echoBranch_spawns (p s : String) (st : AgentState) :
    (echoBranch p s st).spawns = [] := by
  unfold echoBranch
  split <;> rfl

/-- The validated pip branch spawns nothing or one vector. -/
theorem pipValidatedBranch_spawns (p c : String) (a : List String) (st : AgentState) (env : Env) :
    (pipValidatedBranch p c a st env).spawns = [] ∨
    ∃ argv, (pipValidatedBranch p c a st env).spawns = [Spawn.vec argv] := by
  unfold pipValidatedBranch
  dsimp only
  split
  · exact Or.inl rfl
  · split
    · exact Or.inr ⟨_, catchTop_spawns ..⟩
    · split <;> exact Or.inr ⟨_, rfl⟩

/-- The default validated branch spawns nothing or one vector. -/
theorem regularBranch_spawns (p c : String) (a : List String) (st : AgentState) (env : Env) :
    (regularBranch p c a st env).spawns = [] ∨
    ∃ argv, (regularBranch p c a st env).spawns = [Spawn.vec argv] := by
  unfold regularBranch
  dsimp only
  split
  · exact Or.inl rfl
  · split
    · exact Or.inl rfl
    · split
      · exact Or.inr ⟨_, catchTop_spawns ..⟩
      · split <;> exact Or.inr ⟨_, rfl⟩

/-- C3 (amended): outside the `pip install` raw-string fast path, every
execution path of `execute_command` spawns at most one child, always as
an argument vector with no shell interpretation (the validated pip path
rewrites the vector to `python -m pip ...` rather than `[pip, ...]`). -/
theorem C3_vector_spawn_outside_fastpath (s : String) (st : AgentState) (env : Env)
    (h1 : pyStartswith (pyStrip s) "pip install" = false)
    (h2 : pyStartswith (pyStrip s) "pip3 install" = false) :
    (execute_command s st env).spawns = [] ∨
    ∃ argv, (execute_command s st env).spawns = [Spawn.vec argv] := by
  unfold execute_command
  dsimp only
  split
  · exact Or.inl (sqlBranch_spawns ..)
  · split
    · exact Or.inl (catchTop_spawns ..)
    · exact Or.inl rfl
    · split
      · exact Or.inl (cdBranch_spawns ..)
      · split
        · exact Or.inr ⟨_, pythonCBranch_spawns ..⟩
        · split
          · next h =>
            rcases h with h | h
            · rw [h1] at h
              exact absurd h (by simp)
            · rw [h2] at h
              exact absurd h (by simp)
          · split
            · exact Or.inl (echoBranch_spawns ..)
            · split
              · exact pipValidatedBranch_spawns ..
              · exact regularBranch_spawns ..

/-- C3 (witness): an ordinary validated instruction spawns its single
vector child. -/
theorem C3_witness :
    pyStartswith (pyStrip "ls -l") "pip install" = false ∧
    pyStartswith (pyStrip "ls -l") "pip3 install" = false ∧
    ((execute_command "ls -l" stA envA).spawns = [] ∨
      ∃ argv, (execute_command "ls -l" stA envA).spawns = [Spawn.vec argv]) :=
  ⟨by decide, by decide,
   C3_vector_spawn_outside_fastpath "ls -l" stA envA (by decide) (by decide)⟩

/-! ## Claim C7: backend errors in the SQL dispatcher -/

/-- C7 (counterexample): a backend error while executing a `USE`
statement is reported as "Failed to switch database", not as a
`Database Error` report echoing the statement. -/
theorem C7_counterexample :
    (execute_query "USE baddb" stA dbEnvErr).result =
      .ok ("Failed to switch database: boom", false) ∧
    containsSub "Database Error" "Failed to switch database: boom" = false ∧
    containsSub "USE baddb" "Failed to switch database: boom" = false :=
  ⟨rfl, by decide, by decide⟩

/-- C7 (amended): with a live connection, a `mysql.connector.Error`
raised by the backend is caught inside `execute_query` and never
propagates, and the statement is submitted exactly once; for non-`USE`
statements the report is `Database Error: <e>` echoing the statement,
while failing `USE` statements report `Failed to switch database: <e>`
without echoing it. -/
theorem C7_database_error_reporting (q : String) (st : AgentState) (env : DbEnv)
    (conn : DbConn) (m : String)
    (hconn : st.db_connection = some conn) (hlive : conn.connected = true)
    (hexec : env.exec q = .error (.mysqlError m)) :
    ((pyStartswith (pyUpper (pyStrip q)) "USE" = false →
      (execute_query q st env).result = .ok ("Database Error: " ++ m ++ "\nQuery: " ++ q, false) ∧
      (execute_query q st env).sqlTrace = [q]) ∧
     (pyStartswith (pyUpper (pyStrip q)) "USE" = true →
      (execute_query q st env).result = .ok ("Failed to switch database: " ++ m, false) ∧
      (execute_query q st env).sqlTrace = [q])) := by
  have hc : connect_to_db st env = .ok (true, st) := by
    unfold connect_to_db
    rw [hconn]
    dsimp only
    rw [hlive]
    simp
  constructor <;> intro hu <;>
  · unfold execute_query
    rw [hc]
    dsimp only
    rw [hu]
    simp only [reduceIte, Bool.false_eq_true]
    rw [hexec]
    exact ⟨rfl, rfl⟩

/-- C7 (witness): a failing `DELETE` is reported as a caught
`Database Error` with the statement echoed, submitted once. -/
theorem C7_witness :
    (execute_query "DELETE FROM t" stA dbEnvErr).result =
      .ok ("Database Error: " ++ "boom" ++ "\nQuery: " ++ "DELETE FROM t", false) ∧
    (execute_query "DELETE FROM t" stA dbEnvErr).sqlTrace = ["DELETE FROM t"] :=
  (C7_database_error_reporting "DELETE FROM t" stA dbEnvErr ⟨true, "testdb"⟩ "boom"
    rfl rfl rfl).1 (by decide)

/-! ## Claim C8: unrecognized TABLE loop operations -/

/-- A TABLE loop operation matching none of SHOW, COUNT and DESCRIBE
appends no report line and submits no per-table statement. -/
theorem tableLoop_unknown (op : String) (limit : Option Int) (env : DbEnv)
    (h1 : op ≠ "SHOW") (h2 : op ≠ "COUNT") (h3 : op ≠ "DESCRIBE") :
    ∀ ts, tableLoop op limit env ts = (.ok [], []) := by
  intro ts
  induction ts with
  | nil => rfl
  | cons t rest ih =>
    unfold tableLoop
    rw [if_neg h1, if_neg h2, if_neg h3]
    exact ih

/-- C8 (counterexample): a TABLE loop with the unrecognized operation
`DROPITALL` returns the empty report with success=true after fetching
the table list — it does not fail with any error. -/
theorem C8_counterexample :
    (execute_loop "TABLE" "DROPITALL" stA envA).result = ("", true) ∧
    (execute_loop "TABLE" "DROPITALL" stA envA).sqlTrace = ["SHOW TABLES"] :=
  ⟨rfl, rfl⟩

/-- C8 (amended): a TABLE loop directive whose operation is none of
SHOW, COUNT and DESCRIBE (and carries no LIMIT clause) does not fail:
the per-table dispatch matches nothing, so the loop returns the empty
report with success=true, having submitted only the table enumeration
query; only a malformed LIMIT value fails before iterating. -/
theorem C8_unknown_operation_succeeds (op : String) (st : AgentState) (env : Env)
    (conn : DbConn) (qr : QueryResult) (tables : List String)
    (hconn : st.db_connection = some conn) (hlive : conn.connected = true)
    (hexec : env.db.exec "SHOW TABLES" = .ok qr)
    (hfv : firstVals qr.rows = .ok tables) (hne : tables ≠ [])
    (hnl : containsSub "LIMIT" op = false)
    (h1 : op ≠ "SHOW") (h2 : op ≠ "COUNT") (h3 : op ≠ "DESCRIBE") :
    (execute_loop "TABLE" op st env).result = ("", true) ∧
    (execute_loop "TABLE" op st env).sqlTrace = ["SHOW TABLES"] := by
  have hc : connect_to_db st env.db = .ok (true, st) := by
    unfold connect_to_db
    rw [hconn]
    dsimp only
    rw [hlive]
    simp
  unfold execute_loop
  rw [if_neg (by decide : ¬ ("TABLE" : String) = "FILE")]
  rw [if_pos rfl]
  rw [hc]
  dsimp only
  rw [hexec]
  dsimp only
  rw [hfv]
  dsimp only
  rw [if_neg hne]
  rw [hnl]
  simp only [Bool.false_eq_true, false_and, if_false, reduceIte]
  rw [tableLoop_unknown op none env.db h1 h2 h3 tables]
  exact ⟨rfl, rfl⟩

/-- C8 (witness): the concrete scenario with one table and operation
`FROBNICATE`. -/
theorem C8_witness :
    (execute_loop "TABLE" "FROBNICATE" stA envA).result = ("", true) ∧
    (execute_loop "TABLE" "FROBNICATE" stA envA).sqlTrace = ["SHOW TABLES"] :=
  C8_unknown_operation_succeeds "FROBNICATE" stA envA ⟨true, "testdb"⟩
    ⟨[[("Tables_in_testdb", "users")]], 0⟩ ["users"] rfl rfl rfl rfl
    (by decide) (by decide) (by decide) (by decide) (by decide)

/-! ## Claim C9: partial failure in FILE loops -/

/-- An infix occurs in the Boolean substring test. -/
theorem subList_of_infix {l₁ l₂ : List Char} (h : l₁ <:+: l₂) : subList l₁ l₂ = true := by
  induction l₂ with
  | nil =>
    rw [List.infix_nil] at h
    subst h
    rfl
  | cons c t ih =>
    rw [List.infix_cons_iff] at h
    unfold subList
    rcases h with h | h
    · rw [List.isPrefixOf_iff_prefix.2 h]
      simp
    · rw [ih h]
      simp

/-- Every member of a joined list occurs in the joined string. -/
theorem infix_joinWith (sep : String) :
    ∀ (l : List String) (x : String), x ∈ l → x.data <:+: (joinWith sep l).data := by
  intro l
  induction l with
  | nil =>
    intro x hx
    cases hx
  | cons a rest ih =>
    intro x hx
    cases rest with
    | nil =>
      rw [List.mem_singleton] at hx
      subst hx
      exact List.infix_refl _
    | cons b rs =>
      rcases List.mem_cons.1 hx with rfl | hx
      · show x.data <:+: (x ++ sep ++ joinWith sep (b :: rs)).data
        rw [String.data_append, String.data_append, List.append_assoc]
        exact (List.prefix_append _ _).isInfix
      · obtain ⟨s, t, hst⟩ := ih x hx
        show x.data <:+: (a ++ sep ++ joinWith sep (b :: rs)).data
        refine ⟨(a ++ sep).data ++ s, t, ?_⟩
        rw [show (a ++ sep ++ joinWith sep (b :: rs)).data =
          (a ++ sep).data ++ (joinWith sep (b :: rs)).data from String.data_append .., ← hst]
        simp [String.data_append, List.append_assoc]

/-- Each file contributes its header and its report line to the FILE
loop's section list, whatever happened to the other files. -/
theorem fileLoop_mem (cmd : String) (cargs : List String) (env : Env) :
    ∀ (files : List String) (f : String), f ∈ files →
      ("\n=== " ++ f ++ " ===") ∈ (fileLoop cmd cargs env files).1 ∧
      fileLine cmd cargs env f ∈ (fileLoop cmd cargs env files).1 := by
  intro files
  induction files with
  | nil =>
    intro f hf
    cases hf
  | cons g rest ih =>
    intro f hf
    rcases List.mem_cons.1 hf with rfl | hf
    · exact ⟨List.mem_cons_self .., List.mem_cons_of_mem _ (List.mem_cons_self ..)⟩
    · obtain ⟨h1, h2⟩ := ih f hf
      exact ⟨List.mem_cons_of_mem _ (List.mem_cons_of_mem _ h1),
        List.mem_cons_of_mem _ (List.mem_cons_of_mem _ h2)⟩

/-- C9 (confirmed): a FILE loop over an empty directory fails with the
no-files report; over a non-empty directory with an allowed command it
always returns an overall result with success=true, every file's header
section appears in the report, and a file on which the spawned command
exits non-zero contributes its `Error:` line while the loop continues
with the remaining files (their headers appear too). -/
theorem C9_file_loop_partial_failure (st : AgentState) (env : Env) (operation : String) :
    (env.listdir.filter (fun f => env.isfile (pjoin working_directory f)) = [] →
      (execute_loop "FILE" operation st env).result =
        ("No files found in current directory", false)) ∧
    (∀ command command_args,
      shlex_split operation = .ok (command :: command_args) →
      (command_rules command).isSome = true →
      env.listdir.filter (fun f => env.isfile (pjoin working_directory f)) ≠ [] →
      (execute_loop "FILE" operation st env).result.2 = true ∧
      (∀ f ∈ env.listdir.filter (fun f => env.isfile (pjoin working_directory f)),
        subList ("\n=== " ++ f ++ " ===").data
          (execute_loop "FILE" operation st env).result.1.data = true ∧
        (∀ r, env.run (command :: command_args ++ [pjoin working_directory f]) = .ok r →
          r.returncode ≠ 0 →
          subList ("Error: " ++ pyStrip r.stderr).data
            (execute_loop "FILE" operation st env).result.1.data = true))) := by
  constructor
  · intro h
    unfold execute_loop
    rw [if_pos rfl]
    dsimp only
    rw [if_pos h]
  · intro command command_args hsh hrule hne
    obtain ⟨ru, hru⟩ := Option.isSome_iff_exists.1 hrule
    have hunf : execute_loop "FILE" operation st env =
        { result := (joinWith "\n"
            (fileLoop command command_args env
              (env.listdir.filter (fun f => env.isfile (pjoin working_directory f)))).1, true),
          state := st,
          spawns := (fileLoop command command_args env
            (env.listdir.filter (fun f => env.isfile (pjoin working_directory f)))).2,
          sqlTrace := [] } := by
      unfold execute_loop
      rw [if_pos rfl]
      dsimp only
      rw [if_neg hne, hsh]
      dsimp only
      rw [hru]
    rw [hunf]
    refine ⟨rfl, ?_⟩
    intro f hf
    obtain ⟨hhead, hline⟩ := fileLoop_mem command command_args env _ f hf
    constructor
    · exact subList_of_infix (infix_joinWith "\n" _ _ hhead)
    · intro r hr hrc
      have hfl : fileLine command command_args env f = "Error: " ++ pyStrip r.stderr := by
        unfold fileLine
        rw [hr]
        dsimp only
        rw [if_neg hrc]
      rw [hfl] at hline
      exact subList_of_infix (infix_joinWith "\n" _ _ hline)

/-- C9 (witness): with `a.txt` failing (exit 1, stderr `boom-err`) and
`b.txt` succeeding, the loop still succeeds overall and the report
carries the error line for `a.txt` and the header for `b.txt`. -/
theorem C9_witness :
    (execute_loop "FILE" "wc -l" stA envFail).result.2 = true ∧
    subList ("Error: " ++ pyStrip "boom-err").data
      (execute_loop "FILE" "wc -l" stA envFail).result.1.data = true ∧
    subList ("\n=== " ++ "b.txt" ++ " ===").data
      (execute_loop "FILE" "wc -l" stA envFail).result.1.data = true :=
  have h := (C9_file_loop_partial_failure stA envFail "wc -l").2 "wc" ["-l"] rfl rfl (by decide)
  ⟨h.1, (h.2 "a.txt" (by decide)).2 ⟨1, "", "boom-err"⟩ rfl (by decide),
    (h.2 "b.txt" (by decide)).1⟩

/-! ## Claim C6: the echo redirection handler

The lemmas leading up to the claim establish that any tokenizable
instruction whose stripped form starts with `echo` and which contains a
`>` necessarily reaches the redirect handler: it is not an SQL
statement, its first token starts with `echo` (so it is not `cd`), and
none of the raw-string special cases for `python -c` or `pip install`
can trigger. -/

/-- Two strings whose first characters differ are not prefix-related. -/
theorem pyStartswith_false_of_head_ne (u pre : String) (a b : Char)
    (ru rp : List Char) (hu : u.data = a :: ru) (hp : pre.data = b :: rp) (h : b ≠ a) :
    pyStartswith u pre = false := by
  unfold pyStartswith
  rw [hu, hp]
  rw [Bool.eq_false_iff]
  intro hpre
  exact h (List.cons_prefix_cons.1 (List.isPrefixOf_iff_prefix.1 hpre)).1

/-- Stripping only shortens: the stripped characters are a prefix of the
left-trimmed characters. -/
theorem pyStrip_prefix_dropWhile (s : String) :
    (pyStrip s).data <+: s.data.dropWhile isWs := by
  show ((s.data.dropWhile isWs).reverse.dropWhile isWs).reverse <+: s.data.dropWhile isWs
  conv_rhs => rw [← List.reverse_reverse (s.data.dropWhile isWs)]
  exact List.reverse_prefix.2 (List.dropWhile_suffix isWs)

/-- An instruction whose stripped form starts with `echo` is not
dispatched as SQL: its upper-cased form starts with `E`, unlike all the
dispatch keywords. -/
theorem startsSQL_false_of_echo (s : String)
    (hecho : pyStartswith (pyStrip s) "echo" = true) : startsSQLKeyword s = false := by
  obtain ⟨t0, ht0⟩ := pyStartswith_iff.1 hecho
  have hd : (pyStrip s).data = 'e' :: ('c' :: 'h' :: 'o' :: t0) := by
    rw [← ht0]
    rfl
  have hu : (pyUpper (pyStrip s)).data = 'E' :: List.map asciiUpper ('c' :: 'h' :: 'o' :: t0) := by
    show List.map asciiUpper (pyStrip s).data = _
    rw [hd]
    rfl
  unfold startsSQLKeyword
  dsimp only
  rw [pyStartswith_false_of_head_ne _ "SELECT" _ 'S' _ _ hu rfl (by decide),
    pyStartswith_false_of_head_ne _ "INSERT" _ 'I' _ _ hu rfl (by decide),
    pyStartswith_false_of_head_ne _ "UPDATE" _ 'U' _ _ hu rfl (by decide),
    pyStartswith_false_of_head_ne _ "DELETE" _ 'D' _ _ hu rfl (by decide),
    pyStartswith_false_of_head_ne _ "SHOW" _ 'S' _ _ hu rfl (by decide),
    pyStartswith_false_of_head_ne _ "DESCRIBE" _ 'D' _ _ hu rfl (by decide),
    pyStartswith_false_of_head_ne _ "CREATE" _ 'C' _ _ hu rfl (by decide),
    pyStartswith_false_of_head_ne _ "USE" _ 'U' _ _ hu rfl (by decide)]
  rfl

/-- The emitted-token accumulator of the tokenizer only grows. -/
theorem shlexRun_acc_prefix (l : List Char) :
    ∀ (st : LexState) (q : Bool) (tok : List Char) (acc out : List String),
      shlexRun l st q tok acc = .ok out → ∃ suf, out = acc ++ suf := by
  induction l with
  | nil =>
    intro st q tok acc out h
    cases st with
    | ws =>
      simp only [shlexRun] at h
      split at h
      · cases h
        exact ⟨[_], rfl⟩
      · cases h
        exact ⟨[], by simp⟩
    | word =>
      simp only [shlexRun] at h
      split at h
      · cases h
        exact ⟨[_], rfl⟩
      · cases h
        exact ⟨[], by simp⟩
    | inQuote qc =>
      simp only [shlexRun] at h
      exact Except.noConfusion h
    | inEscape e =>
      simp only [shlexRun] at h
      exact Except.noConfusion h
  | cons c rest ih =>
    intro st q tok acc out h
    cases st with
    | ws =>
      simp only [shlexRun] at h
      split at h
      · split at h
        · obtain ⟨suf, rfl⟩ := ih _ _ _ _ _ h
          exact ⟨[String.mk tok] ++ suf, by simp⟩
        · exact ih _ _ _ _ _ h
      · split at h
        · exact ih _ _ _ _ _ h
        · split at h
          · exact ih _ _ _ _ _ h
          · exact ih _ _ _ _ _ h
    | word =>
      simp only [shlexRun] at h
      split at h
      · split at h
        · obtain ⟨suf, rfl⟩ := ih _ _ _ _ _ h
          exact ⟨[String.mk tok] ++ suf, by simp⟩
        · exact ih _ _ _ _ _ h
      · split at h
        · exact ih _ _ _ _ _ h
        · split at h
          · exact ih _ _ _ _ _ h
          · exact ih _ _ _ _ _ h
    | inQuote qc =>
      simp only [shlexRun] at h
      split at h
      · exact ih _ _ _ _ _ h
      · split at h
        · exact ih _ _ _ _ _ h
        · exact ih _ _ _ _ _ h
    | inEscape e =>
      simp only [shlexRun] at h
      split at h
      · exact ih _ _ _ _ _ h
      · exact ih _ _ _ _ _ h

/-- Once the tokenizer is inside a token (any non-whitespace state,
with a nonempty partial token or a quote seen), a successful run emits
that token next, possibly extended: the partial token is a prefix of the
next emitted token. -/
theorem shlexRun_token_grows (l : List Char) :
    ∀ (st : LexState) (q : Bool) (tok : List Char) (acc out : List String),
      st ≠ .ws → (tok ≠ [] ∨ q = true) →
      shlexRun l st q tok acc = .ok out →
      ∃ (tokStr : String) (rest : List String),
        out = acc ++ tokStr :: rest ∧ tok <+: tokStr.data := by
  induction l with
  | nil =>
    intro st q tok acc out hst hq h
    cases st with
    | ws => exact absurd rfl hst
    | word =>
      simp only [shlexRun] at h
      rw [if_pos hq] at h
      cases h
      exact ⟨⟨tok⟩, [], rfl, List.prefix_refl _⟩
    | inQuote qc =>
      simp only [shlexRun] at h
      exact Except.noConfusion h
    | inEscape e =>
      simp only [shlexRun] at h
      exact Except.noConfusion h
  | cons c rest ih =>
    intro st q tok acc out hst hq h
    cases st with
    | ws => exact absurd rfl hst
    | word =>
      simp only [shlexRun] at h
      split at h
      · obtain ⟨suf, rfl⟩ := shlexRun_acc_prefix rest _ _ _ _ _ h
        exact ⟨⟨tok⟩, suf, by simp, List.prefix_refl _⟩
      · split at h
        · exact ih _ _ _ _ _ (by simp) hq h
        · split at h
          · exact ih _ _ _ _ _ (by simp) hq h
          · obtain ⟨tokStr, r, hout, hpre⟩ :=
              ih _ _ _ _ _ (by simp) (Or.inl (by simp)) h
            exact ⟨tokStr, r, hout, (List.prefix_append tok [c]).trans hpre⟩
    | inQuote qc =>
      simp only [shlexRun] at h
      split at h
      · exact ih _ _ _ _ _ (by simp) (Or.inr rfl) h
      · split at h
        · exact ih _ _ _ _ _ (by simp) (Or.inr rfl) h
        · obtain ⟨tokStr, r, hout, hpre⟩ :=
            ih _ _ _ _ _ (by simp) (Or.inr rfl) h
          exact ⟨tokStr, r, hout, (List.prefix_append tok [c]).trans hpre⟩
    | inEscape e =>
      simp only [shlexRun] at h
      split at h
      · obtain ⟨tokStr, r, hout, hpre⟩ :=
          ih _ _ _ _ _ (by simp) (Or.inl (by split <;> simp)) h
        refine ⟨tokStr, r, hout, List.IsPrefix.trans ?_ hpre⟩
        split <;> exact List.prefix_append ..
      · obtain ⟨tokStr, r, hout, hpre⟩ :=
          ih _ _ _ _ _ (by simp) (Or.inl (by split <;> simp)) h
        refine ⟨tokStr, r, hout, List.IsPrefix.trans ?_ hpre⟩
        split <;> exact List.prefix_append ..

/-- A tokenizable instruction whose stripped form starts with `echo`
tokenizes to a nonempty list whose first token itself starts with
`echo`: the tokenizer skips the leading whitespace and then accumulates
the four literal characters into the first token. -/
theorem shlex_first_token_echo (s : String)
    (hecho : pyStartswith (pyStrip s) "echo" = true)
    {out : List String} (h : shlex_split s = .ok out) :
    ∃ c rest, out = c :: rest ∧ pyStartswith c "echo" = true := by
  obtain ⟨tail, htail⟩ := (pyStartswith_iff.1 hecho).trans (pyStrip_prefix_dropWhile s)
  have hsplit : s.data = s.data.takeWhile isWs ++ ('e' :: 'c' :: 'h' :: 'o' :: tail) := by
    conv_lhs => rw [← List.takeWhile_append_dropWhile isWs s.data]
    rw [← htail]
    rfl
  have hws : ∀ (w l' : List Char), (∀ c ∈ w, isWs c = true) →
      shlexRun (w ++ l') .ws false [] [] = shlexRun l' .ws false [] [] := by
    intro w
    induction w with
    | nil =>
      intro l' _
      rfl
    | cons c cw ihw =>
      intro l' hall
      rw [List.cons_append]
      simp only [shlexRun]
      rw [if_pos (hall c (List.mem_cons_self ..)), if_neg (by simp)]
      exact ihw l' (fun d hd => hall d (List.mem_cons_of_mem _ hd))
  have hrun : shlex_split s = shlexRun tail .word false ['e', 'c', 'h', 'o'] [] := by
    show shlexRun s.data .ws false [] [] = _
    rw [hsplit, hws _ _ (fun c hc => List.mem_takeWhile_imp hc)]
    rfl
  rw [hrun] at h
  obtain ⟨tokStr, r, hout, hpre⟩ :=
    shlexRun_token_grows tail .word false ['e', 'c', 'h', 'o'] [] out
      (by simp) (Or.inl (by simp)) h
  exact ⟨tokStr, r, by simpa using hout, pyStartswith_iff.2 hpre⟩

/-- An instruction containing `>` splits at its first `>`. -/
theorem pySplit1_gt_isSome (s : String) (hgt : containsChar s '>' = true) :
    ∃ ba, pySplit1 ">" s = some ba := by
  have hmem : '>' ∈ s.data := by simpa [containsChar] using hgt
  obtain ⟨u, v, huv⟩ := List.append_of_mem hmem
  have hcs : containsSub ">" s = true := subList_of_infix ⟨u, v, by simp [huv]⟩
  unfold pySplit1
  rw [if_pos hcs]
  exact ⟨_, rfl⟩

/-- C6 (counterexample): `badEcho` starts with `echo` and contains `>`,
yet it is not handled by the redirect writer: its unbalanced quote makes
the tokenizer raise, so the command reports failure and nothing is
written. -/
theorem C6_counterexample :
    pyStartswith (pyStrip badEcho) "echo" = true ∧
    containsChar badEcho '>' = true ∧
    (execute_command badEcho stA envA).success = false ∧
    (execute_command badEcho stA envA).writes = [] :=
  ⟨rfl, rfl, rfl, rfl⟩

/-- C6 (amended): every instruction string that (stripped) starts with
`echo`, contains a `>`, and is accepted by the shell tokenizer is
handled by the redirect writer: it always reports success and writes the
parsed content directly to the redirect target joined to the working
directory — for *every* state and environment and *every* target string,
so neither command validation nor path containment is consulted, and no
process is spawned. -/
theorem C6_echo_redirect_unvalidated_write (s : String) (st : AgentState) (env : Env)
    (hecho : pyStartswith (pyStrip s) "echo" = true)
    (hgt : containsChar s '>' = true)
    (hok : (shlex_split s).isOk = true) :
    (execute_command s st env).success = true ∧
    (execute_command s st env).writes =
      [(pjoin working_directory (echoTargetOf s), echoContentOf s)] ∧
    (execute_command s st env).spawns = [] := by
  obtain ⟨out, hout⟩ : ∃ out, shlex_split s = .ok out := by
    cases hsh : shlex_split s with
    | error m =>
      rw [hsh] at hok
      exact absurd hok (by simp [Except.isOk, Except.toBool])
    | ok out => exact ⟨out, rfl⟩
  obtain ⟨c, rest, rfl, hcpre⟩ := shlex_first_token_echo s hecho hout
  obtain ⟨t0, ht0⟩ := pyStartswith_iff.1 hecho
  have hd : (pyStrip s).data = 'e' :: ('c' :: 'h' :: 'o' :: t0) := by
    rw [← ht0]
    rfl
  have hsql := startsSQL_false_of_echo s hecho
  have hcd : ¬ c = "cd" := by
    intro hc
    rw [hc] at hcpre
    exact absurd hcpre (by decide)
  have hpyc : pyStartswith (pyStrip s) "python -c" = false :=
    pyStartswith_false_of_head_ne _ _ _ 'p' _ _ hd rfl (by decide)
  have hpy3c : pyStartswith (pyStrip s) "python3 -c" = false :=
    pyStartswith_false_of_head_ne _ _ _ 'p' _ _ hd rfl (by decide)
  have hpip : pyStartswith (pyStrip s) "pip install" = false :=
    pyStartswith_false_of_head_ne _ _ _ 'p' _ _ hd rfl (by decide)
  have hpip3 : pyStartswith (pyStrip s) "pip3 install" = false :=
    pyStartswith_false_of_head_ne _ _ _ 'p' _ _ hd rfl (by decide)
  obtain ⟨⟨before, after⟩, hba⟩ := pySplit1_gt_isSome s hgt
  unfold execute_command
  dsimp only
  rw [if_neg (by simp [hsql]), hout]
  dsimp only
  rw [if_neg hcd,
    if_neg (by rintro (hx | hx) <;> simp [hpyc, hpy3c] at hx),
    if_neg (by rintro (hx | hx) <;> simp [hpip, hpip3] at hx),
    if_pos ⟨hecho, Or.inl hgt⟩]
  unfold echoBranch
  rw [hba]
  dsimp only
  refine ⟨rfl, ?_, rfl⟩
  unfold echoTargetOf echoContentOf
  rw [hba]
  rfl

/-- C6 (witness): `echo hacked > ../name` is written, with success, to
`/app/test/../name` — a target that resolves outside the sandbox root,
as the containment predicate confirms. -/
theorem C6_witness :
    (pyStartswith (pyStrip "echo hacked > ../name") "echo" = true ∧
      containsChar "echo hacked > ../name" '>' = true ∧
      (shlex_split "echo hacked > ../name").isOk = true) ∧
    (execute_command "echo hacked > ../name" stA envA).writes =
      [("/app/test/../name", "hacked")] ∧
    spec_is_contained "../name" = false := by
  refine ⟨⟨by decide, by decide, by decide⟩, ?_, by decide⟩
  have h := C6_echo_redirect_unvalidated_write "echo hacked > ../name" stA envA
    (by decide) (by decide) (by decide)
  rw [h.2.1]
  decide

end EasyLinux
